import Mathlib

/-!
# Verification of the certRotator-aws renewal core

Shallow embedding of `src/main_thread.js`: the certificate-lifecycle state
machine (`handleStart` / `handleOk` / `handleError` dispatched by `main`),
the store writer `writeCertificateToFile`, and the hook runner
`runHookCommands`.

Modelling conventions:
* Times and durations are rationals (`ℚ`); `expiration` is in seconds since
  the epoch, everything else in milliseconds, exactly as in the source.
* Each handler invocation consumes an `Env` describing the outcome of its
  external effects: the certificate fetch (`fetch`), the store write
  (`writeOk`), the hook-runner aggregate (`hooksOk`), and the values
  `Date.now()` returns at each of the (up to three) points where the
  source consults the clock.
* A handler returns a `StepResult` recording whether it threw (`raised`),
  the list of `scheduleNextStatusTransition` delays it requested
  (`schedules`), the session record as mutated when control left the
  handler, and the content of the certificate file.
-/

namespace CertRotator

/-- A certificate bundle as returned by the Certificate Source, together
with the `ttl` annotation the state machine attaches (`certData.ttl = ttl`
in the source); `none` until the machine sets it. -/
structure CertData where
  certificate : String
  private_key : String
  expiration : ℚ
  ttl : Option ℚ := none
deriving DecidableEq, Repr

/-- The session status: `current.status` takes exactly the values
`"start"`, `"ok"`, `"error"` in the source. -/
inductive Status where
  | start
  | ok
  | error
deriving DecidableEq, Repr

/-- The mutable session record threaded through `main`. -/
structure Session where
  status : Status
  active_cert : Option CertData := none
  second_cert : Option CertData := none
deriving DecidableEq, Repr

/-- `config.intervals` (validated upstream by `parse_config.js`). -/
structure Intervals where
  ok : ℚ
  error : ℚ
  default : ℚ
  buffer : ℚ
deriving DecidableEq, Repr

/-- The slice of the configuration object the state machine reads. -/
structure Config where
  intervals : Intervals
deriving DecidableEq, Repr

/-- Outcomes of the externally-visible effects during one handler
invocation: the fetch result, whether the store write succeeds, whether
the hook runner's aggregate result is success, and the three clock
readings (`t_pre` for the expiry precheck at the top of `handleError`,
`t_check` for the buffer-window comparison, `t_ttl` for the final ttl
computation). -/
structure Env where
  fetch : Option CertData
  writeOk : Bool
  hooksOk : Bool
  t_pre : ℚ
  t_check : ℚ
  t_ttl : ℚ
deriving DecidableEq, Repr

/-- Result of one handler invocation: `raised` records an uncaught throw,
`schedules` lists the delays passed to `scheduleNextStatusTransition` (one
entry per call), `session` is the session record as mutated when control
left the handler, `file` the certificate-file content (`none` = never
written). -/
structure StepResult where
  raised : Bool
  schedules : List ℚ
  session : Session
  file : Option String
deriving DecidableEq, Repr

/-- An uncaught `throw`: no scheduling happens. -/
def throwResult (current : Session) (file : Option String) : StepResult :=
  { raised := true, schedules := [], session := current, file := file }

/-- A `return scheduleNextStatusTransition(delay, current, config)`:
exactly one timer is armed. -/
def scheduleResult (delay : ℚ) (current : Session) (file : Option String) : StepResult :=
  { raised := false, schedules := [delay], session := current, file := file }

/-- The bundle as serialised by the store writer:
`certData.certificate + "\n" + certData.private_key` (source line 112). -/
def renderBundle (certData : CertData) : String :=
  certData.certificate ++ "\n" ++ certData.private_key

/-- `writeCertificateToFile` (source lines 110–114): `fs.writeFileSync`
replaces the whole file content with the rendered bundle, regardless of
what was there before. -/
def writeCertificateToFile (certData : CertData) (_prev : Option String) : Option String :=
  some (renderBundle certData)

/-- `handleStart` (source lines 159–208). -/
def handleStart (cfg : Config) (env : Env) (current : Session) (file : Option String) :
    StepResult :=
  let retryTime := cfg.intervals.default
  match env.fetch with
  | none => scheduleResult retryTime current file
  | some certData =>
    -- lines 173–174: the fetched bundle is installed before the write
    let current := { current with active_cert := some certData, second_cert := none }
    if env.writeOk = false then
      scheduleResult retryTime current file
    else
      let file := writeCertificateToFile certData file
      if env.hooksOk = false then
        throwResult current file
      else
        let ttl := certData.expiration * 1000 - env.t_ttl
        if ttl ≤ 0 then
          throwResult current file
        else
          -- line 202: `certData.ttl = ttl` mutates the object `active_cert` points to
          let certData := { certData with ttl := some ttl }
          let time := cfg.intervals.ok * ttl
          scheduleResult time
            { current with status := Status.ok, active_cert := some certData } file

/-- Final ttl computation and scheduling (source lines 260–272 and
355–369): `certData.ttl = ttl` mutates the fetched object, which is
aliased by `active_cert` when the bundle was just promoted and by
`second_cert` otherwise. -/
def finishRenewal (cfg : Config) (env : Env) (certData : CertData) (promoted : Bool)
    (current : Session) (file : Option String) : StepResult :=
  let ttl := certData.expiration * 1000 - env.t_ttl
  if ttl ≤ 0 then
    throwResult current file
  else
    let certData := { certData with ttl := some ttl }
    let current :=
      if promoted then { current with active_cert := some certData }
      else { current with second_cert := some certData }
    let time := cfg.intervals.ok * ttl
    scheduleResult time { current with status := Status.ok } file

/-- Common body of `handleOk` after its fetch succeeds (source lines
230–272) and of the success branch of `handleError` (source lines
326–369), which are textually identical: install the fetched bundle as
`second_cert`, promote it when the buffer window fires, then annotate its
ttl and schedule the next renewal. `active` / `attl` are the entry value
of `current.active_cert` and its ttl. -/
def renewWithFetched (cfg : Config) (env : Env) (current : Session) (active : CertData)
    (attl : ℚ) (certData : CertData) (file : Option String) : StepResult :=
  let retryTime := attl * cfg.intervals.error
  let current := { current with second_cert := some certData }
  let timeUntilExpiration := active.expiration * 1000 - env.t_check
  let bufferTime := attl * cfg.intervals.buffer
  if timeUntilExpiration < bufferTime then
    if env.writeOk = false then
      -- write threw before the assignments on lines 241–242 ran
      scheduleResult retryTime { current with status := Status.error } file
    else
      let file := writeCertificateToFile certData file
      let current := { current with active_cert := some certData, second_cert := none }
      if env.hooksOk = false then
        throwResult current file
      else
        finishRenewal cfg env certData true current file
  else
    finishRenewal cfg env certData false current file

/-- `handleOk` (source lines 215–273). A session lacking `active_cert` or
its `ttl` annotation is malformed (unreachable from the initial state);
it is modelled as an uncaught runtime error. -/
def handleOk (cfg : Config) (env : Env) (current : Session) (file : Option String) :
    StepResult :=
  match current.active_cert with
  | none => throwResult current file
  | some active =>
    match active.ttl with
    | none => throwResult current file
    | some attl =>
      let retryTime := attl * cfg.intervals.error
      match env.fetch with
      | none => scheduleResult retryTime { current with status := Status.error } file
      | some certData => renewWithFetched cfg env current active attl certData file

/-- `handleError` (source lines 280–370). -/
def handleError (cfg : Config) (env : Env) (current : Session) (file : Option String) :
    StepResult :=
  match current.active_cert with
  | none => throwResult current file
  | some active =>
    if active.expiration * 1000 < env.t_pre then
      -- lines 284–287: the last known-good bundle has expired
      throwResult current file
    else
      match active.ttl with
      | none => throwResult current file
      | some attl =>
        let retryTime := attl * cfg.intervals.error
        match env.fetch with
        | none =>
          -- lines 294–324: fetch failed while in error state
          let timeUntilExpiration := active.expiration * 1000 - env.t_check
          let bufferTime := attl * cfg.intervals.buffer
          match current.second_cert with
          | some second =>
            if timeUntilExpiration < bufferTime then
              if env.writeOk = false then
                scheduleResult retryTime current file
              else
                let file := writeCertificateToFile second file
                let current :=
                  { current with active_cert := some second, second_cert := none }
                if env.hooksOk = false then
                  throwResult current file
                else
                  scheduleResult retryTime current file
            else
              scheduleResult retryTime current file
          | none => scheduleResult retryTime current file
        | some certData => renewWithFetched cfg env current active attl certData file

/-- `main` (source lines 132–152): dispatch on `current.status`. The
`Status` type has exactly the three known values, so the source's
unknown-status throw has no representable input here. -/
def mainStep (cfg : Config) (env : Env) (current : Session) (file : Option String) :
    StepResult :=
  match current.status with
  | Status.start => handleStart cfg env current file
  | Status.ok => handleOk cfg env current file
  | Status.error => handleError cfg env current file

/-! ## Hook runner (source lines 37–88)

Each hook command runs its own retry loop; the loops run concurrently and
`Promise.all` aggregates them. `behavior i k` abstracts the external
world: whether command `i`'s `(k+1)`-th attempt would succeed. -/

/-- `hook.onfail` after upstream validation/defaulting. -/
structure OnFail where
  retry_every : ℚ
  retry_num : ℕ
deriving DecidableEq, Repr

/-- One entry of `config.onstart` / `config.onreplace`. -/
structure HookSpec where
  command : String
  onfail : OnFail
deriving DecidableEq, Repr

/-- One command's retry loop, the source's `attempt` (lines 52–77):
`attempts` counts attempts already made; the loop makes attempt number
`attempts + 1`, resolves on success, rejects when
`attempts >= maxAttempts` after the failure, and otherwise retries. -/
def attemptFrom (succ : ℕ → Bool) (maxAttempts : ℕ) (attempts : ℕ) : Bool :=
  if succ attempts then true
  else if maxAttempts ≤ attempts + 1 then false
  else attemptFrom succ maxAttempts (attempts + 1)
termination_by maxAttempts - attempts
decreasing_by simp_wf; omega

/-- The per-command loops joined left to right with the command's index,
mirroring `hookArray.map((hook, index) => ...)` followed by
`Promise.all`. -/
def runHooksFrom (behavior : ℕ → ℕ → Bool) : ℕ → List HookSpec → Bool
  | _, [] => true
  | i, hook :: rest =>
      attemptFrom (behavior i) hook.onfail.retry_num 0 && runHooksFrom behavior (i + 1) rest

/-- `runHookCommands` (source lines 37–88): resolves (returns `true`) iff
every command's own retry loop resolves; an empty list is a no-op
success. -/
def runHookCommands (hooks : List HookSpec) (behavior : ℕ → ℕ → Bool) : Bool :=
  runHooksFrom behavior 0 hooks

/-- Execution state of one command's retry loop: still waiting to make
attempt `attempts + 1`, resolved, or rejected. -/
inductive CmdState where
  | running (attempts : ℕ)
  | succeeded
  | failed
deriving DecidableEq, Repr

/-- One attempt of one command (the body of `attempt`, lines 55–76):
succeed, reject on exhaustion, or arm the retry timer. -/
def stepCmd (succ : ℕ → Bool) (maxAttempts : ℕ) (attempts : ℕ) : CmdState :=
  if succ attempts then CmdState.succeeded
  else if maxAttempts ≤ attempts + 1 then CmdState.failed
  else CmdState.running (attempts + 1)

/-- Interleaved execution of the concurrent retry loops: from the state
where every command is about to make its first attempt, any still-running
command may take its next attempt, in any order. `budgets` lists each
command's `onfail.retry_num`. -/
inductive HookRun (behavior : ℕ → ℕ → Bool) (budgets : List ℕ) : List CmdState → Prop where
  | init : HookRun behavior budgets (List.replicate budgets.length (CmdState.running 0))
  | step (σ : List CmdState) (i a : ℕ) (hi : i < σ.length) (hb : i < budgets.length)
      (hrun : σ.get ⟨i, hi⟩ = CmdState.running a)
      (h : HookRun behavior budgets σ) :
      HookRun behavior budgets (σ.set i (stepCmd (behavior i) (budgets.get ⟨i, hb⟩) a))

/-- Whether a command's loop has reached a verdict. -/
def isRunning : CmdState → Bool
  | CmdState.running _ => true
  | CmdState.succeeded => false
  | CmdState.failed => false

/-- All retry loops have settled. -/
def Complete (σ : List CmdState) : Prop := ∀ s ∈ σ, isRunning s = false

/-- `Promise.all` resolves: every command's loop resolved. -/
def allSucceeded (σ : List CmdState) : Prop := ∀ s ∈ σ, s = CmdState.succeeded

/-- Invariant tying a loop's state to the attempt outcomes: a running
loop has only seen failures and still has budget; a resolved loop saw a
success within budget; a rejected loop saw every budgeted attempt
fail. -/
def cmdInv (succ : ℕ → Bool) (m : ℕ) : CmdState → Prop
  | CmdState.running a => a < m ∧ ∀ k < a, succ k = false
  | CmdState.succeeded => ∃ k, k < m ∧ succ k = true
  | CmdState.failed => ∀ k < m, succ k = false

/-- Disk-consistency invariant: once the session has left `start`,
`active_cert` is present and is exactly the bundle content most recently
written to the configured file. -/
def FileInv (current : Session) (file : Option String) : Prop :=
  current.status ≠ Status.start →
    ∃ a, current.active_cert = some a ∧ file = some (renderBundle a)

/-- Configuration for the concrete three-cycle scenario below:
`intervals = { ok: 0.2, error: 0.05, default: 30000, buffer: 0.25 }`. -/
def cfgScenario : Config := ⟨⟨0.2, 0.05, 30000, 0.25⟩⟩

/-- Scenario: the bundle active since an earlier cycle (expires at
2000 s, ttl annotated 1000000 ms). -/
def certA : CertData := ⟨"A", "KA", 2000, some 1000000⟩

/-- Scenario: the bundle fetched in cycle 1 (expires at 4000 s). -/
def certB : CertData := ⟨"B", "KB", 4000, none⟩

/-- Cycle 1 at `now = 1000000`: `ok`, fetch succeeds with `certB`, the
buffer window does not fire, so `certB` stays standby. -/
def traceStep1 : StepResult :=
  mainStep cfgScenario ⟨some certB, true, true, 0, 1000000, 1000000⟩
    ⟨Status.ok, some certA, none⟩ (some "A\nKA")

/-- Cycle 2: `ok`, fetch fails, session drops to `error` with the standby
retained. -/
def traceStep2 : StepResult :=
  mainStep cfgScenario ⟨none, true, true, 0, 0, 0⟩ traceStep1.session traceStep1.file

/-- Cycle 3 at `now = 1900000`: `error`, fetch fails, the buffer window
fires and the standby from cycle 1 is promoted to `active_cert`. -/
def traceStep3 : StepResult :=
  mainStep cfgScenario ⟨none, true, true, 1900000, 1900000, 1900000⟩
    traceStep2.session traceStep2.file

/-! ## Lemmas about the hook runner -/

theorem attemptFrom_true_iff (succ : ℕ → Bool) (m : ℕ) :
    ∀ d attempts, m - attempts = d → attempts < m →
      (attemptFrom succ m attempts = true ↔
        ∃ k, attempts ≤ k ∧ k < m ∧ succ k = true) := by
  intro d
  induction d with
  | zero => intro attempts hd hlt; omega
  | succ d ih =>
    intro attempts hd hlt
    rw [attemptFrom]
    by_cases hs : succ attempts = true
    · simp only [hs, if_true, true_iff]
      exact ⟨attempts, le_refl _, hlt, hs⟩
    · simp only [hs, if_false, Bool.false_eq_true]
      by_cases hx : m ≤ attempts + 1
      · simp only [hx, if_true]
        constructor
        · intro h; exact absurd h (by simp)
        · rintro ⟨k, hk1, hk2, hk3⟩
          have : k = attempts := by omega
          subst this
          exact absurd hk3 (by simp [hs])
      · simp only [hx, if_false]
        have hlt' : attempts + 1 < m := by omega
        rw [ih (attempts + 1) (by omega) hlt']
        constructor
        · rintro ⟨k, hk1, hk2, hk3⟩; exact ⟨k, by omega, hk2, hk3⟩
        · rintro ⟨k, hk1, hk2, hk3⟩
          refine ⟨k, ?_, hk2, hk3⟩
          rcases Nat.eq_or_lt_of_le hk1 with h | h
          · subst h; exact absurd hk3 (by simp [hs])
          · omega

theorem runHooksFrom_true_iff (behavior : ℕ → ℕ → Bool) :
    ∀ (hooks : List HookSpec) (i : ℕ),
      (∀ h ∈ hooks, 1 ≤ h.onfail.retry_num) →
      (runHooksFrom behavior i hooks = true ↔
        ∀ j (hj : j < hooks.length),
          ∃ k, k < (hooks.get ⟨j, hj⟩).onfail.retry_num ∧ behavior (i + j) k = true) := by
  intro hooks
  induction hooks with
  | nil => intro i _; simp [runHooksFrom]
  | cons hook rest ih =>
    intro i hb
    have hhead : 1 ≤ hook.onfail.retry_num := hb hook (List.mem_cons_self _ _)
    have hrest : ∀ h ∈ rest, 1 ≤ h.onfail.retry_num :=
      fun h hm => hb h (List.mem_cons_of_mem _ hm)
    simp only [runHooksFrom, Bool.and_eq_true]
    rw [attemptFrom_true_iff (behavior i) hook.onfail.retry_num (hook.onfail.retry_num - 0) 0
      rfl (by omega), ih (i + 1) hrest]
    constructor
    · rintro ⟨⟨k, _, hk2, hk3⟩, hall⟩ j hj
      cases j with
      | zero => exact ⟨k, hk2, by simpa using hk3⟩
      | succ j =>
        have hj' : j < rest.length := by simpa using hj
        obtain ⟨k', hk1', hk2'⟩ := hall j hj'
        refine ⟨k', ?_, ?_⟩
        · simpa using hk1'
        · have : i + 1 + j = i + (j + 1) := by omega
          rw [this] at hk2'; exact hk2'
    · intro hall
      constructor
      · obtain ⟨k, hk1, hk2⟩ := hall 0 (by simp)
        exact ⟨k, by omega, by simpa using hk1, by simpa using hk2⟩
      · intro j hj
        obtain ⟨k, hk1, hk2⟩ := hall (j + 1) (by simpa using Nat.succ_lt_succ hj)
        refine ⟨k, by simpa using hk1, ?_⟩
        have : i + (j + 1) = i + 1 + j := by omega
        rw [this] at hk2; exact hk2

theorem hookRun_length {behavior : ℕ → ℕ → Bool} {budgets : List ℕ} {σ : List CmdState}
    (h : HookRun behavior budgets σ) : σ.length = budgets.length := by
  induction h with
  | init => simp
  | step σ' i a hi hb hrun h ih => simpa using ih

theorem stepCmd_inv {succ : ℕ → Bool} {m a : ℕ}
    (h : cmdInv succ m (CmdState.running a)) : cmdInv succ m (stepCmd succ m a) := by
  obtain ⟨ham, hprev⟩ := h
  unfold stepCmd
  by_cases hs : succ a = true
  · simp only [hs, if_true, cmdInv]
    exact ⟨a, ham, hs⟩
  · simp only [hs, Bool.false_eq_true, if_false]
    by_cases hx : m ≤ a + 1
    · simp only [hx, if_true, cmdInv]
      intro k hk
      rcases Nat.lt_or_ge k a with h' | h'
      · exact hprev k h'
      · have : k = a := by omega
        subst this
        simpa using hs
    · simp only [hx, if_false, cmdInv]
      refine ⟨by omega, ?_⟩
      intro k hk
      rcases Nat.lt_or_ge k a with h' | h'
      · exact hprev k h'
      · have : k = a := by omega
        subst this
        simpa using hs

theorem hookRun_inv {behavior : ℕ → ℕ → Bool} {budgets : List ℕ} {σ : List CmdState}
    (hb1 : ∀ b ∈ budgets, 1 ≤ b) (h : HookRun behavior budgets σ) :
    ∀ i (hi : i < σ.length) (hbi : i < budgets.length),
      cmdInv (behavior i) (budgets.get ⟨i, hbi⟩) (σ.get ⟨i, hi⟩) := by
  induction h with
  | init =>
    intro i hi hbi
    simp only [List.get_eq_getElem, List.getElem_replicate, cmdInv]
    refine ⟨?_, by omega⟩
    have := hb1 _ (List.get_mem budgets i hbi)
    simpa [List.get_eq_getElem] using this
  | step σ' i a hi hbi hrun h ih =>
    intro j hj hbj
    have hj' : j < σ'.length := by simpa using hj
    by_cases hij : j = i
    · subst hij
      have hrun' : σ'[j] = CmdState.running a := by
        simpa only [List.get_eq_getElem] using hrun
      have hthis := ih j hj' hbj
      simp only [List.get_eq_getElem] at hthis
      rw [hrun'] at hthis
      simp only [List.get_eq_getElem, List.getElem_set_self]
      exact stepCmd_inv hthis
    · simp only [List.get_eq_getElem, List.getElem_set_ne (fun he => hij he.symm)]
      exact ih j hj' hbj

theorem hookRun_complete_iff {behavior : ℕ → ℕ → Bool} {budgets : List ℕ} {σ : List CmdState}
    (hb1 : ∀ b ∈ budgets, 1 ≤ b) (h : HookRun behavior budgets σ) (hc : Complete σ) :
    (allSucceeded σ ↔
      ∀ i (hbi : i < budgets.length), ∃ k, k < budgets.get ⟨i, hbi⟩ ∧ behavior i k = true) := by
  have hlen := hookRun_length h
  have hinv := hookRun_inv hb1 h
  constructor
  · intro hall i hbi
    have hi : i < σ.length := by omega
    have := hinv i hi hbi
    rw [hall _ (List.get_mem σ i hi)] at this
    exact this
  · intro hex s hs
    rw [List.mem_iff_get] at hs
    obtain ⟨⟨i, hi⟩, hget⟩ := hs
    have hbi : i < budgets.length := by omega
    have hinvi := hinv i hi hbi
    cases hsi : σ.get ⟨i, hi⟩ with
    | running a =>
      have := hc _ (List.get_mem σ i hi)
      rw [hsi] at this
      simp [isRunning] at this
    | succeeded => rw [← hget, hsi]
    | failed =>
      rw [hsi] at hinvi
      obtain ⟨k, hk1, hk2⟩ := hex i hbi
      have := hinvi k hk1
      rw [hk2] at this
      simp at this

/-! ## Claim theorems -/

/-- C1: for every non-empty list of hook specs, the hook runner's
aggregate result is success iff every command individually succeeds
within its retry budget (at most `onfail.retry_num` attempts each),
regardless of how the concurrent per-command retry loops interleave: in
any complete interleaved run, `Promise.all` resolves iff each command's
loop found a successful attempt within its budget — and this coincides
with the deterministic aggregate `runHookCommands`. -/
theorem C1_hook_runner_success_iff (hooks : List HookSpec) (behavior : ℕ → ℕ → Bool)
    (σ : List CmdState) (hne : hooks ≠ [])
    (hb1 : ∀ h ∈ hooks, 1 ≤ h.onfail.retry_num)
    (hr : HookRun behavior (hooks.map fun h => h.onfail.retry_num) σ)
    (hc : Complete σ) :
    (allSucceeded σ ↔
      ∀ i (hi : i < hooks.length),
        ∃ k, k < (hooks.get ⟨i, hi⟩).onfail.retry_num ∧ behavior i k = true) ∧
    (runHookCommands hooks behavior = true ↔
      ∀ i (hi : i < hooks.length),
        ∃ k, k < (hooks.get ⟨i, hi⟩).onfail.retry_num ∧ behavior i k = true) := by
  have _ := hne
  have hbm : ∀ b ∈ hooks.map (fun h => h.onfail.retry_num), 1 ≤ b := by
    intro b hb
    rw [List.mem_map] at hb
    obtain ⟨h, hh, rfl⟩ := hb
    exact hb1 h hh
  constructor
  · rw [hookRun_complete_iff hbm hr hc]
    constructor
    · intro hall i hi
      have := hall i (by simpa using hi)
      simpa [List.get_eq_getElem] using this
    · intro hall i hbi
      have hi : i < hooks.length := by simpa using hbi
      have := hall i hi
      simpa [List.get_eq_getElem] using this
  · rw [runHookCommands, runHooksFrom_true_iff behavior hooks 0 hb1]
    constructor <;> intro hall i hi <;> simpa using hall i hi

/-- Witness for C1: a single hook whose only attempt succeeds, run to
completion in one interleaving step. -/
theorem C1_hook_runner_success_iff_witness :
    (allSucceeded [CmdState.succeeded] ↔
      ∀ i (hi : i < ([⟨"echo ok", ⟨60000, 1⟩⟩] : List HookSpec).length),
        ∃ k, k < (([⟨"echo ok", ⟨60000, 1⟩⟩] : List HookSpec).get ⟨i, hi⟩).onfail.retry_num ∧
          (fun _ _ => true : ℕ → ℕ → Bool) i k = true) ∧
    (runHookCommands [⟨"echo ok", ⟨60000, 1⟩⟩] (fun _ _ => true) = true ↔
      ∀ i (hi : i < ([⟨"echo ok", ⟨60000, 1⟩⟩] : List HookSpec).length),
        ∃ k, k < (([⟨"echo ok", ⟨60000, 1⟩⟩] : List HookSpec).get ⟨i, hi⟩).onfail.retry_num ∧
          (fun _ _ => true : ℕ → ℕ → Bool) i k = true) :=
  C1_hook_runner_success_iff [⟨"echo ok", ⟨60000, 1⟩⟩] (fun _ _ => true) [CmdState.succeeded]
    (by decide) (by decide)
    (HookRun.step [CmdState.running 0] 0 0 (by decide) (by decide) rfl HookRun.init)
    (by intro s hs; rw [List.mem_singleton] at hs; subst hs; rfl)

/-- C5: every invocation of the error handler whose session has an
already-expired active certificate (`active_cert.expiration*1000 < now`)
raises an unrecoverable error and schedules no further work, regardless of
whether a `second_cert` is present. -/
theorem C5_error_expired_fatal (cfg : Config) (env : Env) (current : Session)
    (file : Option String) (active : CertData)
    (ha : current.active_cert = some active)
    (hexp : active.expiration * 1000 < env.t_pre) :
    handleError cfg env current file =
      { raised := true, schedules := [], session := current, file := file } := by
  simp [handleError, ha, hexp, throwResult]

/-- Witness for C5: expired active bundle at time 2000000 ms, standby
present. -/
theorem C5_error_expired_fatal_witness :
    handleError ⟨⟨0.2, 0.05, 30000, 0.25⟩⟩
        ⟨none, true, true, 2000000, 2000000, 2000000⟩
        ⟨Status.error, some ⟨"A", "KA", 1000, some 500000⟩, some ⟨"B", "KB", 3000, none⟩⟩
        (some "old") =
      { raised := true, schedules := [],
        session := ⟨Status.error, some ⟨"A", "KA", 1000, some 500000⟩,
          some ⟨"B", "KB", 3000, none⟩⟩,
        file := some "old" } :=
  C5_error_expired_fatal _ _ _ _ ⟨"A", "KA", 1000, some 500000⟩ rfl (by norm_num)

/-- C7: when the error handler's fetch fails and the buffer-window
condition does not hold, the handler mutates neither `active_cert` nor
`second_cert`, leaves the status at `error` (the whole session record is
returned unchanged), schedules exactly one re-entry after
`retryTime = active_cert.ttl * config.intervals.error`, and a repeated
invocation under the same environment yields the identical result. -/
theorem C7_error_fetch_fail_frame (cfg : Config) (env : Env) (current : Session)
    (file : Option String) (active : CertData) (attl : ℚ)
    (ha : current.active_cert = some active)
    (ht : active.ttl = some attl)
    (hexp : ¬ active.expiration * 1000 < env.t_pre)
    (hf : env.fetch = none)
    (hbuf : ¬ active.expiration * 1000 - env.t_check < attl * cfg.intervals.buffer) :
    handleError cfg env current file =
      { raised := false, schedules := [attl * cfg.intervals.error],
        session := current, file := file } ∧
    handleError cfg env (handleError cfg env current file).session
        (handleError cfg env current file).file =
      handleError cfg env current file := by
  have h1 : handleError cfg env current file =
      { raised := false, schedules := [attl * cfg.intervals.error],
        session := current, file := file } := by
    cases hsc : current.second_cert with
    | none => simp [handleError, ha, ht, hf, hexp, hbuf, hsc, scheduleResult]
    | some second => simp [handleError, ha, ht, hf, hexp, hbuf, hsc, scheduleResult]
  have hs : (handleError cfg env current file).session = current := by rw [h1]
  have hfl : (handleError cfg env current file).file = file := by rw [h1]
  exact ⟨h1, by rw [hs, hfl]⟩

/-- Witness for C7: persistent fetch failure well inside the certificate's
validity (remaining 900000 ms, buffer window 125000 ms). -/
theorem C7_error_fetch_fail_frame_witness :
    handleError ⟨⟨0.2, 0.05, 30000, 0.25⟩⟩
        ⟨none, true, true, 100000, 100000, 100000⟩
        ⟨Status.error, some ⟨"A", "KA", 1000, some 500000⟩, some ⟨"B", "KB", 3000, none⟩⟩
        (some "A\nKA") =
      { raised := false, schedules := [(500000 : ℚ) * 0.05],
        session := ⟨Status.error, some ⟨"A", "KA", 1000, some 500000⟩,
          some ⟨"B", "KB", 3000, none⟩⟩,
        file := some "A\nKA" } :=
  (C7_error_fetch_fail_frame _ _ _ _ ⟨"A", "KA", 1000, some 500000⟩ 500000
    rfl rfl (by norm_num) rfl (by norm_num)).1

/-- C6: when the ok handler's fetch fails, the session transitions to
`error` and exactly one re-entry is scheduled after
`retryTime = active_cert.ttl * config.intervals.error` (nothing else in
the session changes); and every subsequent error-handler invocation with a
failing fetch (and a not-yet-expired active bundle) that does not itself
raise reschedules using the same formula from the current
`active_cert.ttl`. -/
theorem C6_fetch_fail_retry_formula (cfg : Config) (env : Env) (current : Session)
    (file : Option String) (active : CertData) (attl : ℚ)
    (ha : current.active_cert = some active) (ht : active.ttl = some attl)
    (hf : env.fetch = none) :
    handleOk cfg env current file =
      { raised := false, schedules := [attl * cfg.intervals.error],
        session := { current with status := Status.error }, file := file } ∧
    ∀ (env' : Env) (s' : Session) (f' : Option String) (a' : CertData) (attl' : ℚ),
      s'.active_cert = some a' → a'.ttl = some attl' → env'.fetch = none →
      ¬ a'.expiration * 1000 < env'.t_pre →
      ((handleError cfg env' s' f').raised = true ∧
          (handleError cfg env' s' f').schedules = []) ∨
      (handleError cfg env' s' f').schedules = [attl' * cfg.intervals.error] := by
  constructor
  · simp [handleOk, ha, ht, hf, scheduleResult]
  · intro env' s' f' a' attl' ha' ht' hf' hexp'
    cases hsc : s'.second_cert with
    | none =>
      right
      simp [handleError, ha', ht', hf', hexp', hsc, scheduleResult]
    | some second =>
      by_cases hbuf : a'.expiration * 1000 - env'.t_check < attl' * cfg.intervals.buffer
      · by_cases hw : env'.writeOk = false
        · right
          simp [handleError, ha', ht', hf', hexp', hsc, hbuf, hw, scheduleResult]
        · by_cases hh : env'.hooksOk = false
          · left
            simp [handleError, ha', ht', hf', hexp', hsc, hbuf, hw, hh,
              throwResult, writeCertificateToFile]
          · right
            simp [handleError, ha', ht', hf', hexp', hsc, hbuf, hw, hh,
              scheduleResult, writeCertificateToFile]
      · right
        simp [handleError, ha', ht', hf', hexp', hsc, hbuf, scheduleResult]

/-- Witness for C6: fetch failure in `ok` with `ttl = 500000`,
`intervals.error = 0.05`, then a failing fetch in `error` on the same
session. -/
theorem C6_fetch_fail_retry_formula_witness :
    (handleOk ⟨⟨0.2, 0.05, 30000, 0.25⟩⟩ ⟨none, true, true, 100000, 100000, 100000⟩
        ⟨Status.ok, some ⟨"A", "KA", 1000, some 500000⟩, none⟩ (some "A\nKA") =
      { raised := false, schedules := [(500000 : ℚ) * 0.05],
        session := ⟨Status.error, some ⟨"A", "KA", 1000, some 500000⟩, none⟩,
        file := some "A\nKA" }) ∧
    (((handleError ⟨⟨0.2, 0.05, 30000, 0.25⟩⟩ ⟨none, true, true, 100000, 100000, 100000⟩
          ⟨Status.error, some ⟨"A", "KA", 1000, some 500000⟩, none⟩ (some "A\nKA")).raised
            = true ∧
        (handleError ⟨⟨0.2, 0.05, 30000, 0.25⟩⟩ ⟨none, true, true, 100000, 100000, 100000⟩
          ⟨Status.error, some ⟨"A", "KA", 1000, some 500000⟩, none⟩
          (some "A\nKA")).schedules = []) ∨
      (handleError ⟨⟨0.2, 0.05, 30000, 0.25⟩⟩ ⟨none, true, true, 100000, 100000, 100000⟩
          ⟨Status.error, some ⟨"A", "KA", 1000, some 500000⟩, none⟩
          (some "A\nKA")).schedules = [(500000 : ℚ) * 0.05]) := by
  have h := C6_fetch_fail_retry_formula ⟨⟨0.2, 0.05, 30000, 0.25⟩⟩
    ⟨none, true, true, 100000, 100000, 100000⟩
    ⟨Status.ok, some ⟨"A", "KA", 1000, some 500000⟩, none⟩ (some "A\nKA")
    ⟨"A", "KA", 1000, some 500000⟩ 500000 rfl rfl rfl
  exact ⟨h.1, h.2 ⟨none, true, true, 100000, 100000, 100000⟩
    ⟨Status.error, some ⟨"A", "KA", 1000, some 500000⟩, none⟩ (some "A\nKA")
    ⟨"A", "KA", 1000, some 500000⟩ 500000 rfl rfl rfl (by norm_num)⟩

/-- C2: in the ok handler, when the fetch succeeds, the buffer-window
condition `(active_cert.expiration*1000 - now) < active_cert.ttl *
config.intervals.buffer` holds and the store write succeeds, then within
that same invocation the newly fetched bundle is written to the store,
`active_cert` is set to that bundle (up to the ttl annotation the handler
may attach before returning), and `second_cert` is cleared. -/
theorem C2_ok_buffer_promotion (cfg : Config) (env : Env) (current : Session)
    (file : Option String) (active : CertData) (attl : ℚ) (certData : CertData)
    (ha : current.active_cert = some active) (ht : active.ttl = some attl)
    (hf : env.fetch = some certData)
    (hbuf : active.expiration * 1000 - env.t_check < attl * cfg.intervals.buffer)
    (hw : env.writeOk = true) :
    (handleOk cfg env current file).file = some (renderBundle certData) ∧
    (∃ t, (handleOk cfg env current file).session.active_cert =
      some { certData with ttl := t }) ∧
    (handleOk cfg env current file).session.second_cert = none := by
  have hw' : ¬ env.writeOk = false := by simp [hw]
  by_cases hh : env.hooksOk = false
  · have hres : handleOk cfg env current file =
        { raised := true, schedules := [],
          session := { current with active_cert := some certData, second_cert := none },
          file := some (renderBundle certData) } := by
      simp [handleOk, ha, ht, hf, renewWithFetched, hbuf, hw', hh,
        writeCertificateToFile, throwResult]
    rw [hres]
    exact ⟨rfl, ⟨certData.ttl, rfl⟩, rfl⟩
  · by_cases httl : certData.expiration * 1000 - env.t_ttl ≤ 0
    · have hres : handleOk cfg env current file =
          { raised := true, schedules := [],
            session := { current with active_cert := some certData, second_cert := none },
            file := some (renderBundle certData) } := by
        simp [handleOk, ha, ht, hf, renewWithFetched, hbuf, hw', hh, finishRenewal, httl,
          writeCertificateToFile, throwResult]
      rw [hres]
      exact ⟨rfl, ⟨certData.ttl, rfl⟩, rfl⟩
    · have hres : handleOk cfg env current file =
          { raised := false,
            schedules := [cfg.intervals.ok * (certData.expiration * 1000 - env.t_ttl)],
            session :=
              { status := Status.ok,
                active_cert :=
                  some { certData with ttl := some (certData.expiration * 1000 - env.t_ttl) },
                second_cert := none },
            file := some (renderBundle certData) } := by
        simp [handleOk, ha, ht, hf, renewWithFetched, hbuf, hw', hh, finishRenewal, httl,
          writeCertificateToFile, scheduleResult]
      rw [hres]
      exact ⟨rfl, ⟨some (certData.expiration * 1000 - env.t_ttl), rfl⟩, rfl⟩

/-- Witness for C2: active bundle 100000 ms from expiry with a 125000 ms
buffer window; the freshly fetched bundle is promoted at once. -/
theorem C2_ok_buffer_promotion_witness :
    (handleOk ⟨⟨0.2, 0.25, 30000, 0.25⟩⟩
        ⟨some ⟨"B", "KB", 3000, none⟩, true, true, 900000, 900000, 900000⟩
        ⟨Status.ok, some ⟨"A", "KA", 1000, some 500000⟩, none⟩ (some "A\nKA")).file =
      some (renderBundle ⟨"B", "KB", 3000, none⟩) ∧
    (∃ t, (handleOk ⟨⟨0.2, 0.25, 30000, 0.25⟩⟩
        ⟨some ⟨"B", "KB", 3000, none⟩, true, true, 900000, 900000, 900000⟩
        ⟨Status.ok, some ⟨"A", "KA", 1000, some 500000⟩, none⟩
        (some "A\nKA")).session.active_cert =
      some { certificate := "B", private_key := "KB", expiration := 3000, ttl := t }) ∧
    (handleOk ⟨⟨0.2, 0.25, 30000, 0.25⟩⟩
        ⟨some ⟨"B", "KB", 3000, none⟩, true, true, 900000, 900000, 900000⟩
        ⟨Status.ok, some ⟨"A", "KA", 1000, some 500000⟩, none⟩
        (some "A\nKA")).session.second_cert = none :=
  C2_ok_buffer_promotion _ _ _ _ ⟨"A", "KA", 1000, some 500000⟩ 500000
    ⟨"B", "KB", 3000, none⟩ rfl rfl rfl (by norm_num) rfl

/-- Counterexample to C4 as stated: in the start handler the fetched
bundle is assigned to `active_cert` (source line 173) *before* the store
write is attempted, so after a write failure the session *does* retain the
fetched certificate in `active_cert` — it is not discarded from the
session record. -/
theorem C4_counterexample :
    (mainStep ⟨⟨0.2, 0.05, 30000, 0.25⟩⟩
        ⟨some ⟨"C", "KC", 100, none⟩, false, true, 0, 0, 0⟩
        ⟨Status.start, none, none⟩ none).session.active_cert =
      some ⟨"C", "KC", 100, none⟩ ∧
    some (⟨"C", "KC", 100, none⟩ : CertData) ≠ (none : Option CertData) := by
  exact ⟨rfl, by simp⟩

/-- C4 as amended: when the start handler's fetch succeeds but the store
write fails, the machine schedules one retry after
`config.intervals.default`, the session stays in `start`, and although the
fetched bundle is left in `active_cert` (with `second_cert` cleared), it
is never used: the next `start` attempt re-fetches, and its outcome is
independent of whatever bundles the session retains. -/
theorem C4_amended_start_write_fail (cfg : Config) (env : Env) (current : Session)
    (file : Option String) (certData : CertData)
    (hs : current.status = Status.start)
    (hf : env.fetch = some certData) (hw : env.writeOk = false) :
    mainStep cfg env current file =
      { raised := false, schedules := [cfg.intervals.default],
        session := { current with active_cert := some certData, second_cert := none },
        file := file } ∧
    ∀ (x y x' y' : Option CertData),
      handleStart cfg env ⟨Status.start, x, y⟩ file =
        handleStart cfg env ⟨Status.start, x', y'⟩ file := by
  constructor
  · simp [mainStep, hs, handleStart, hf, hw, scheduleResult]
  · intro x y x' y'
    simp [handleStart, hf]

/-- Witness for the amended C4 at the counterexample's input. -/
theorem C4_amended_start_write_fail_witness :
    mainStep ⟨⟨0.2, 0.05, 30000, 0.25⟩⟩
        ⟨some ⟨"C", "KC", 100, none⟩, false, true, 0, 0, 0⟩
        ⟨Status.start, none, none⟩ none =
      { raised := false, schedules := [(30000 : ℚ)],
        session := ⟨Status.start, some ⟨"C", "KC", 100, none⟩, none⟩,
        file := none } ∧
    ∀ (x y x' y' : Option CertData),
      handleStart ⟨⟨0.2, 0.05, 30000, 0.25⟩⟩
          ⟨some ⟨"C", "KC", 100, none⟩, false, true, 0, 0, 0⟩ ⟨Status.start, x, y⟩ none =
        handleStart ⟨⟨0.2, 0.05, 30000, 0.25⟩⟩
          ⟨some ⟨"C", "KC", 100, none⟩, false, true, 0, 0, 0⟩ ⟨Status.start, x', y'⟩ none :=
  C4_amended_start_write_fail _ _ _ _ ⟨"C", "KC", 100, none⟩ rfl rfl rfl

/-- C9: the store writer emits exactly
`certificate + "\n" + private_key` to the configured path, independent of
(and overwriting) any previous file content, so a read-back returns that
concatenation. -/
theorem C9_store_writer_roundtrip (certData : CertData) (prev prev' : Option String) :
    writeCertificateToFile certData prev =
      some (certData.certificate ++ "\n" ++ certData.private_key) ∧
    writeCertificateToFile certData prev = writeCertificateToFile certData prev' :=
  ⟨rfl, rfl⟩

/-- C10: every invocation of the state-machine entry point either raises
(and then schedules nothing) or calls the scheduler exactly once — no
handler path completes without arming exactly one re-entry timer. -/
theorem C10_one_schedule_or_raise (cfg : Config) (env : Env) (current : Session)
    (file : Option String) :
    ((mainStep cfg env current file).raised = true ∧
      (mainStep cfg env current file).schedules = []) ∨
    ((mainStep cfg env current file).raised = false ∧
      ∃ d, (mainStep cfg env current file).schedules = [d]) := by
  rcases current with ⟨st, ac, sc⟩
  cases st <;>
    simp only [mainStep, handleStart, handleOk, handleError, renewWithFetched,
      finishRenewal, writeCertificateToFile, throwResult, scheduleResult] <;>
    (repeat' split) <;>
    simp

theorem renewWithFetched_disk (cfg : Config) (env : Env) (current : Session)
    (active : CertData) (attl : ℚ) (certData : CertData) (file : Option String)
    (hac : current.active_cert = some active)
    (hfile : file = some (renderBundle active)) :
    ∃ a, (renewWithFetched cfg env current active attl certData file).session.active_cert =
        some a ∧
      (renewWithFetched cfg env current active attl certData file).file =
        some (renderBundle a) := by
  by_cases hbuf : active.expiration * 1000 - env.t_check < attl * cfg.intervals.buffer
  · by_cases hw : env.writeOk = false
    · exact ⟨active, by simp [renewWithFetched, hbuf, hw, scheduleResult, hac],
        by simp [renewWithFetched, hbuf, hw, scheduleResult, hfile]⟩
    · by_cases hh : env.hooksOk = false
      · exact ⟨certData,
          by simp [renewWithFetched, hbuf, hw, hh, throwResult, writeCertificateToFile],
          by simp [renewWithFetched, hbuf, hw, hh, throwResult, writeCertificateToFile]⟩
      · by_cases httl : certData.expiration * 1000 - env.t_ttl ≤ 0
        · exact ⟨certData,
            by simp [renewWithFetched, finishRenewal, hbuf, hw, hh, httl, throwResult,
              writeCertificateToFile],
            by simp [renewWithFetched, finishRenewal, hbuf, hw, hh, httl, throwResult,
              writeCertificateToFile]⟩
        · refine ⟨{ certData with ttl := some (certData.expiration * 1000 - env.t_ttl) },
            by simp [renewWithFetched, finishRenewal, hbuf, hw, hh, httl, scheduleResult,
              writeCertificateToFile], ?_⟩
          simp [renewWithFetched, finishRenewal, hbuf, hw, hh, httl, scheduleResult,
            writeCertificateToFile, renderBundle]
  · by_cases httl : certData.expiration * 1000 - env.t_ttl ≤ 0
    · exact ⟨active,
        by simp [renewWithFetched, finishRenewal, hbuf, httl, throwResult, hac],
        by simp [renewWithFetched, finishRenewal, hbuf, httl, throwResult, hfile]⟩
    · exact ⟨active,
        by simp [renewWithFetched, finishRenewal, hbuf, httl, scheduleResult, hac],
        by simp [renewWithFetched, finishRenewal, hbuf, httl, scheduleResult, hfile]⟩

/-- C8: disk consistency — whenever the session's status is `ok` or
`error` (i.e. after the first successful store write), `active_cert` is
exactly the bundle most recently written to the configured file; in the
ok and error handlers the store write happens before `active_cert` is
reassigned, so a failed write leaves `active_cert` still referring to the
bundle on disk. Stated as: the invariant `FileInv` is preserved by every
state-machine invocation, including ones that raise. -/
theorem C8_active_cert_on_disk (cfg : Config) (env : Env) (current : Session)
    (file : Option String) (hinv : FileInv current file) :
    FileInv (mainStep cfg env current file).session
      (mainStep cfg env current file).file := by
  rcases current with ⟨st, ac, sc⟩
  cases st with
  | start =>
    cases hf : env.fetch with
    | none =>
      intro h
      simp [mainStep, handleStart, hf, scheduleResult] at h
    | some certData =>
      by_cases hw : env.writeOk = false
      · intro h
        simp [mainStep, handleStart, hf, hw, scheduleResult] at h
      · by_cases hh : env.hooksOk = false
        · intro h
          simp [mainStep, handleStart, hf, hw, hh, throwResult, writeCertificateToFile] at h
        · by_cases httl : certData.expiration * 1000 - env.t_ttl ≤ 0
          · intro h
            simp [mainStep, handleStart, hf, hw, hh, httl, throwResult,
              writeCertificateToFile] at h
          · intro _
            refine ⟨{ certData with ttl := some (certData.expiration * 1000 - env.t_ttl) },
              by simp [mainStep, handleStart, hf, hw, hh, httl, scheduleResult,
                writeCertificateToFile], ?_⟩
            simp [mainStep, handleStart, hf, hw, hh, httl, scheduleResult,
              writeCertificateToFile, renderBundle]
  | ok =>
    obtain ⟨a, hac, hfile⟩ := hinv (by simp)
    cases ac with
    | none => simp at hac
    | some a0 =>
      rw [Option.some.injEq] at hac
      subst hac
      cases ht : a0.ttl with
      | none =>
        intro _
        exact ⟨a0, by simp [mainStep, handleOk, ht, throwResult],
          by simp [mainStep, handleOk, ht, throwResult, hfile]⟩
      | some attl =>
        cases hf : env.fetch with
        | none =>
          intro _
          exact ⟨a0, by simp [mainStep, handleOk, ht, hf, scheduleResult],
            by simp [mainStep, handleOk, ht, hf, scheduleResult, hfile]⟩
        | some certData =>
          have hstep : mainStep cfg env ⟨Status.ok, some a0, sc⟩ file =
              renewWithFetched cfg env ⟨Status.ok, some a0, sc⟩ a0 attl certData file := by
            simp [mainStep, handleOk, ht, hf]
          intro _
          rw [hstep]
          exact renewWithFetched_disk cfg env _ a0 attl certData file rfl hfile
  | error =>
    obtain ⟨a, hac, hfile⟩ := hinv (by simp)
    cases ac with
    | none => simp at hac
    | some a0 =>
      rw [Option.some.injEq] at hac
      subst hac
      by_cases hexp : a0.expiration * 1000 < env.t_pre
      · intro _
        exact ⟨a0, by simp [mainStep, handleError, hexp, throwResult],
          by simp [mainStep, handleError, hexp, throwResult, hfile]⟩
      · cases ht : a0.ttl with
        | none =>
          intro _
          exact ⟨a0, by simp [mainStep, handleError, hexp, ht, throwResult],
            by simp [mainStep, handleError, hexp, ht, throwResult, hfile]⟩
        | some attl =>
          cases hf : env.fetch with
          | none =>
            cases hsc : sc with
            | none =>
              intro _
              exact ⟨a0,
                by simp [mainStep, handleError, hexp, ht, hf, scheduleResult],
                by simp [mainStep, handleError, hexp, ht, hf, scheduleResult, hfile]⟩
            | some second =>
              by_cases hbuf : a0.expiration * 1000 - env.t_check < attl * cfg.intervals.buffer
              · by_cases hw : env.writeOk = false
                · intro _
                  exact ⟨a0,
                    by simp [mainStep, handleError, hexp, ht, hf, hbuf, hw, scheduleResult],
                    by simp [mainStep, handleError, hexp, ht, hf, hbuf, hw, scheduleResult,
                      hfile]⟩
                · by_cases hh : env.hooksOk = false
                  · intro _
                    exact ⟨second,
                      by simp [mainStep, handleError, hexp, ht, hf, hbuf, hw, hh,
                        throwResult, writeCertificateToFile],
                      by simp [mainStep, handleError, hexp, ht, hf, hbuf, hw, hh,
                        throwResult, writeCertificateToFile]⟩
                  · intro _
                    exact ⟨second,
                      by simp [mainStep, handleError, hexp, ht, hf, hbuf, hw, hh,
                        scheduleResult, writeCertificateToFile],
                      by simp [mainStep, handleError, hexp, ht, hf, hbuf, hw, hh,
                        scheduleResult, writeCertificateToFile]⟩
              · intro _
                exact ⟨a0,
                  by simp [mainStep, handleError, hexp, ht, hf, hbuf, scheduleResult],
                  by simp [mainStep, handleError, hexp, ht, hf, hbuf, scheduleResult, hfile]⟩
          | some certData =>
            have hstep : mainStep cfg env ⟨Status.error, some a0, sc⟩ file =
                renewWithFetched cfg env ⟨Status.error, some a0, sc⟩ a0 attl certData file := by
              simp [mainStep, handleError, hexp, ht, hf]
            intro _
            rw [hstep]
            exact renewWithFetched_disk cfg env _ a0 attl certData file rfl hfile

/-- Witness for C8: a healthy `ok` session whose active bundle matches
the file content, stepped once. -/
theorem C8_active_cert_on_disk_witness :
    FileInv
      (mainStep ⟨⟨0.2, 0.05, 30000, 0.25⟩⟩ ⟨none, true, true, 0, 0, 0⟩
        ⟨Status.ok, some ⟨"A", "KA", 1000, some 500000⟩, none⟩ (some "A\nKA")).session
      (mainStep ⟨⟨0.2, 0.05, 30000, 0.25⟩⟩ ⟨none, true, true, 0, 0, 0⟩
        ⟨Status.ok, some ⟨"A", "KA", 1000, some 500000⟩, none⟩ (some "A\nKA")).file :=
  C8_active_cert_on_disk _ _ _ _ (fun _ => ⟨⟨"A", "KA", 1000, some 500000⟩, rfl, rfl⟩)

/-- Counterexample to C3 as stated: in the concrete three-cycle trace,
the standby fetched in cycle 1 (at `now = 1000000`, ttl annotated
`4000*1000 - 1000000 = 3000000`) is promoted to `active_cert` in cycle 3
(at `now = 1900000`), yet still carries `ttl = 3000000`, while the
milliseconds remaining at the moment it became active are
`4000*1000 - 1900000 = 2100000`: the promoted bundle's ttl is measured
from its fetch cycle, not from its promotion time. -/
theorem C3_counterexample :
    traceStep3.session.active_cert = some ⟨"B", "KB", 4000, some 3000000⟩ ∧
    (3000000 : ℚ) ≠ (4000 : ℚ) * 1000 - 1900000 := by
  have h1s : traceStep1.session =
      ⟨Status.ok, some certA, some ⟨"B", "KB", 4000, some 3000000⟩⟩ := by
    norm_num [traceStep1, cfgScenario, certA, certB, mainStep, handleOk,
      renewWithFetched, finishRenewal, scheduleResult]
  have h1f : traceStep1.file = some "A\nKA" := by
    norm_num [traceStep1, cfgScenario, certA, certB, mainStep, handleOk,
      renewWithFetched, finishRenewal, scheduleResult]
  have h2s : traceStep2.session =
      ⟨Status.error, some certA, some ⟨"B", "KB", 4000, some 3000000⟩⟩ := by
    unfold traceStep2
    rw [h1s, h1f]
    norm_num [cfgScenario, certA, mainStep, handleOk, scheduleResult]
  have h2f : traceStep2.file = some "A\nKA" := by
    unfold traceStep2
    rw [h1s, h1f]
    norm_num [cfgScenario, certA, mainStep, handleOk, scheduleResult]
  have h3 : traceStep3.session.active_cert = some ⟨"B", "KB", 4000, some 3000000⟩ := by
    unfold traceStep3
    rw [h2s, h2f]
    norm_num [cfgScenario, certA, mainStep, handleError, scheduleResult,
      writeCertificateToFile, renderBundle]
  exact ⟨h3, by norm_num⟩

/-- C3 as amended: a bundle's `ttl` is computed once, at the end of the
handler invocation that fetched it (as `expiration*1000 - now` at that
point), whether or not the bundle is active then. A standby promoted by a
later error-cycle is installed verbatim — its ttl stays the one from its
fetch cycle and is not recomputed at promotion time. -/
theorem C3_amended_ttl_from_fetch_cycle (cfg : Config) (env : Env) (current : Session)
    (file : Option String) (active : CertData) (attl : ℚ) (second : CertData)
    (ha : current.active_cert = some active)
    (hexp : ¬ active.expiration * 1000 < env.t_pre)
    (ht : active.ttl = some attl)
    (hf : env.fetch = none)
    (hsc : current.second_cert = some second)
    (hbuf : active.expiration * 1000 - env.t_check < attl * cfg.intervals.buffer)
    (hw : env.writeOk = true) (hh : env.hooksOk = true) :
    (handleError cfg env current file).session.active_cert = some second ∧
    ∀ (env' : Env) (current' : Session) (file' : Option String) (active' : CertData)
      (attl' : ℚ) (certData' : CertData),
      current'.active_cert = some active' → active'.ttl = some attl' →
      env'.fetch = some certData' →
      ¬ active'.expiration * 1000 - env'.t_check < attl' * cfg.intervals.buffer →
      ¬ certData'.expiration * 1000 - env'.t_ttl ≤ 0 →
      (handleOk cfg env' current' file').session.second_cert =
        some { certData' with ttl := some (certData'.expiration * 1000 - env'.t_ttl) } := by
  constructor
  · simp [handleError, ha, hexp, ht, hf, hsc, hbuf, hw, hh, scheduleResult,
      writeCertificateToFile]
  · intro env' current' file' active' attl' certData' ha' ht' hf' hbuf' httl'
    simp [handleOk, ha', ht', hf', renewWithFetched, finishRenewal, hbuf', httl',
      scheduleResult]

/-- Witness for the amended C3, at the trace's promotion cycle and fetch
cycle respectively. -/
theorem C3_amended_ttl_from_fetch_cycle_witness :
    (handleError cfgScenario ⟨none, true, true, 1900000, 1900000, 1900000⟩
        ⟨Status.error, some certA, some ⟨"B", "KB", 4000, some 3000000⟩⟩
        (some "A\nKA")).session.active_cert = some ⟨"B", "KB", 4000, some 3000000⟩ ∧
    ∀ (env' : Env) (current' : Session) (file' : Option String) (active' : CertData)
      (attl' : ℚ) (certData' : CertData),
      current'.active_cert = some active' → active'.ttl = some attl' →
      env'.fetch = some certData' →
      ¬ active'.expiration * 1000 - env'.t_check < attl' * cfgScenario.intervals.buffer →
      ¬ certData'.expiration * 1000 - env'.t_ttl ≤ 0 →
      (handleOk cfgScenario env' current' file').session.second_cert =
        some { certData' with ttl := some (certData'.expiration * 1000 - env'.t_ttl) } :=
  C3_amended_ttl_from_fetch_cycle cfgScenario
    ⟨none, true, true, 1900000, 1900000, 1900000⟩
    ⟨Status.error, some certA, some ⟨"B", "KB", 4000, some 3000000⟩⟩
    (some "A\nKA") certA 1000000 ⟨"B", "KB", 4000, some 3000000⟩
    rfl (by norm_num [certA]) rfl rfl rfl (by norm_num [certA, cfgScenario]) rfl rfl

end CertRotator
